import Mathlib

/-!
Verification of the structural and numerical properties of the notebooks in
the Quantum-Computing repository.

The repository consists of four Jupyter notebook documents:
* `Quantum Optimization/04_grover_optimizer.ipynb` (Grover Adaptive Search on a QUBO),
* `Quantum Finance/01_portfolio_optimization.ipynb`, which physically holds two
  notebook documents: the portfolio-optimization notebook and the
  excited-states (qEOM) notebook,
* the unnamed QuTiP quantum-object notebook (`src/unnamed/part_000`).

Each code cell of every notebook is transcribed below, statement for
statement, into a small Python abstract syntax tree.  The recorded cell
outputs that the numerical claims are about (objective values, total
energies) are transcribed as exact rational constants.  All predicates are
Boolean-valued and computable, so every structural property is settled by
kernel evaluation.
-/

/-! ## A small Python AST

The constructor set covers every construct that occurs in the notebooks,
plus the constructs whose absence the specification asserts (conditionals,
loops, try/except, raise, class definitions, async/await, with-blocks), so
that their absence is a genuine property of the transcription rather than
an artifact of the embedding.  Argument lists and expression lists are
separate mutual inductive types so that all recursion below is structural
and kernel-reducible. -/

mutual

/-- A Python expression. -/
inductive PyExpr where
  | name (s : String)
  | intLit (n : Int)
  | decLit (mant : Int) (digits : Nat)
  | imagLit (mant : Int) (digits : Nat)
  | strLit (s : String)
  | listLit (xs : PyExprs)
  | tupleLit (xs : PyExprs)
  | call (fn : String) (args : PyArgs)
  | methodCall (recv : PyExpr) (m : String) (args : PyArgs)
  | attr (recv : PyExpr) (f : String)
  | index (recv : PyExpr) (i : PyExpr)
  | binop (op : String) (a b : PyExpr)
  | unop (op : String) (a : PyExpr)
  | condExpr (t c e : PyExpr)
  | lam (params : List String) (body : PyExpr)
  | listComp (elem : PyExpr) (v : String) (iter : PyExpr)
  | dictComp (key val : PyExpr) (vars : List String) (iter : PyExpr)
  | awaitExpr (e : PyExpr)

/-- A (positional or keyword) argument of a Python call. -/
inductive PyArg where
  | pos (e : PyExpr)
  | kw (k : String) (e : PyExpr)

/-- A list of call arguments. -/
inductive PyArgs where
  | nil
  | cons (a : PyArg) (rest : PyArgs)

/-- A list of expressions. -/
inductive PyExprs where
  | nil
  | cons (e : PyExpr) (rest : PyExprs)

end

mutual

/-- A Python statement. -/
inductive PyStmt where
  | importModule (m : String)
  | importAs (m a : String)
  | fromImport (m : String) (names : List String)
  | assign (target : String) (e : PyExpr)
  | setAttr (recv : String) (f : String) (e : PyExpr)
  | exprStmt (e : PyExpr)
  | funcDef (fname : String) (params : List String) (body : PyStmts)
  | asyncFuncDef (fname : String) (params : List String) (body : PyStmts)
  | returnStmt (e : PyExpr)
  | forIn (vars : List String) (iter : PyExpr) (body : PyStmts)
  | whileLoop (c : PyExpr) (body : PyStmts)
  | ifStmt (c : PyExpr) (thn els : PyStmts)
  | tryExcept (body handler : PyStmts)
  | classDef (cname : String) (body : PyStmts)
  | raiseStmt (e : PyExpr)
  | withStmt (e : PyExpr) (body : PyStmts)
  | magic (s : String)
  | comment (s : String)

/-- A list of statements (the body of a compound statement). -/
inductive PyStmts where
  | nil
  | cons (s : PyStmt) (rest : PyStmts)

end

/-- Convert a Lean list of arguments to `PyArgs`. -/
def PyArgs.ofList : List PyArg → PyArgs
  | [] => .nil
  | a :: r => .cons a (PyArgs.ofList r)

/-- Convert a Lean list of expressions to `PyExprs`. -/
def PyExprs.ofList : List PyExpr → PyExprs
  | [] => .nil
  | e :: r => .cons e (PyExprs.ofList r)

/-- Convert a Lean list of statements to `PyStmts`. -/
def PyStmts.ofList : List PyStmt → PyStmts
  | [] => .nil
  | s :: r => .cons s (PyStmts.ofList r)

/-- `f(a₁, …, aₙ)` with a plain (possibly dotted) function name. -/
def pCall (fn : String) (args : List PyArg) : PyExpr :=
  .call fn (PyArgs.ofList args)

/-- `e.m(a₁, …, aₙ)`. -/
def pMeth (recv : PyExpr) (m : String) (args : List PyArg) : PyExpr :=
  .methodCall recv m (PyArgs.ofList args)

/-- A Python list literal. -/
def pList (xs : List PyExpr) : PyExpr :=
  .listLit (PyExprs.ofList xs)

/-- A Python tuple. -/
def pTuple (xs : List PyExpr) : PyExpr :=
  .tupleLit (PyExprs.ofList xs)

/-- A positional argument. -/
def pA (e : PyExpr) : PyArg := .pos e

/-- A keyword argument. -/
def pK (k : String) (e : PyExpr) : PyArg := .kw k e

/-- `def f(params): body`. -/
def pDef (fname : String) (params : List String) (body : List PyStmt) : PyStmt :=
  .funcDef fname params (PyStmts.ofList body)

/-- `for v₁, …, vₙ in e: body`. -/
def pFor (vars : List String) (iter : PyExpr) (body : List PyStmt) : PyStmt :=
  .forIn vars iter (PyStmts.ofList body)

/-- `print(e)` as a statement. -/
def pPrint (e : PyExpr) : PyStmt :=
  .exprStmt (pCall "print" [pA e])

/-! ## Syntactic features

`Feats` counts, for a fragment of Python syntax, the occurrences of each
construct whose presence or absence the specification talks about. -/

/-- Occurrence counts of the constructs the specification talks about. -/
structure Feats where
  conds : Nat
  ifs : Nat
  whiles : Nat
  fors : Nat
  comps : Nat
  tries : Nat
  raises : Nat
  classes : Nat
  asyncs : Nat
  funDefs : Nat
  withs : Nat
deriving Repr, DecidableEq

/-- The all-zero feature count. -/
def Feats.zero : Feats := ⟨0, 0, 0, 0, 0, 0, 0, 0, 0, 0, 0⟩

/-- Pointwise sum of feature counts. -/
def Feats.add (a b : Feats) : Feats :=
  ⟨a.conds + b.conds, a.ifs + b.ifs, a.whiles + b.whiles, a.fors + b.fors,
   a.comps + b.comps, a.tries + b.tries, a.raises + b.raises,
   a.classes + b.classes, a.asyncs + b.asyncs, a.funDefs + b.funDefs,
   a.withs + b.withs⟩

/-- One conditional expression. -/
def Feats.oneCond : Feats := ⟨1, 0, 0, 0, 0, 0, 0, 0, 0, 0, 0⟩

/-- One comprehension. -/
def Feats.oneComp : Feats := ⟨0, 0, 0, 0, 1, 0, 0, 0, 0, 0, 0⟩

/-- One `await`. -/
def Feats.oneAwait : Feats := ⟨0, 0, 0, 0, 0, 0, 0, 0, 1, 0, 0⟩

mutual

/-- Feature counts of an expression. -/
def featE : PyExpr → Feats
  | .name _ => Feats.zero
  | .intLit _ => Feats.zero
  | .decLit _ _ => Feats.zero
  | .imagLit _ _ => Feats.zero
  | .strLit _ => Feats.zero
  | .listLit xs => featEs xs
  | .tupleLit xs => featEs xs
  | .call _ args => featAs args
  | .methodCall recv _ args => (featE recv).add (featAs args)
  | .attr recv _ => featE recv
  | .index recv i => (featE recv).add (featE i)
  | .binop _ a b => (featE a).add (featE b)
  | .unop _ a => featE a
  | .condExpr t c e =>
      Feats.oneCond.add (((featE t).add (featE c)).add (featE e))
  | .lam _ body => featE body
  | .listComp elem _ iter => Feats.oneComp.add ((featE elem).add (featE iter))
  | .dictComp key val _ iter =>
      Feats.oneComp.add (((featE key).add (featE val)).add (featE iter))
  | .awaitExpr e => Feats.oneAwait.add (featE e)

/-- Feature counts of one call argument. -/
def featA : PyArg → Feats
  | .pos e => featE e
  | .kw _ e => featE e

/-- Feature counts of a call-argument list. -/
def featAs : PyArgs → Feats
  | .nil => Feats.zero
  | .cons a rest => (featA a).add (featAs rest)

/-- Feature counts of an expression list. -/
def featEs : PyExprs → Feats
  | .nil => Feats.zero
  | .cons e rest => (featE e).add (featEs rest)

end

mutual

/-- Feature counts of a statement (including its nested bodies). -/
def featS : PyStmt → Feats
  | .importModule _ => Feats.zero
  | .importAs _ _ => Feats.zero
  | .fromImport _ _ => Feats.zero
  | .assign _ e => featE e
  | .setAttr _ _ e => featE e
  | .exprStmt e => featE e
  | .funcDef _ _ body => (Feats.mk 0 0 0 0 0 0 0 0 0 1 0).add (featSs body)
  | .asyncFuncDef _ _ body =>
      (Feats.mk 0 0 0 0 0 0 0 0 1 1 0).add (featSs body)
  | .returnStmt e => featE e
  | .forIn _ iter body =>
      (Feats.mk 0 0 0 1 0 0 0 0 0 0 0).add ((featE iter).add (featSs body))
  | .whileLoop c body =>
      (Feats.mk 0 0 1 0 0 0 0 0 0 0 0).add ((featE c).add (featSs body))
  | .ifStmt c thn els =>
      (Feats.mk 0 1 0 0 0 0 0 0 0 0 0).add
        (((featE c).add (featSs thn)).add (featSs els))
  | .tryExcept body handler =>
      (Feats.mk 0 0 0 0 0 1 0 0 0 0 0).add ((featSs body).add (featSs handler))
  | .classDef _ body => (Feats.mk 0 0 0 0 0 0 0 1 0 0 0).add (featSs body)
  | .raiseStmt e => (Feats.mk 0 0 0 0 0 0 1 0 0 0 0).add (featE e)
  | .withStmt e body =>
      (Feats.mk 0 0 0 0 0 0 0 0 0 0 1).add ((featE e).add (featSs body))
  | .magic _ => Feats.zero
  | .comment _ => Feats.zero

/-- Feature counts of a statement list. -/
def featSs : PyStmts → Feats
  | .nil => Feats.zero
  | .cons s rest => (featS s).add (featSs rest)

end

/-- Feature counts of a code cell (a list of top-level statements). -/
def cellFeats (cell : List PyStmt) : Feats :=
  featSs (PyStmts.ofList cell)

mutual

/-- All function and method names applied anywhere in an expression. -/
def namesCalledE : PyExpr → List String
  | .name _ => []
  | .intLit _ => []
  | .decLit _ _ => []
  | .imagLit _ _ => []
  | .strLit _ => []
  | .listLit xs => namesCalledEs xs
  | .tupleLit xs => namesCalledEs xs
  | .call fn args => fn :: namesCalledAs args
  | .methodCall recv m args => m :: (namesCalledE recv ++ namesCalledAs args)
  | .attr recv _ => namesCalledE recv
  | .index recv i => namesCalledE recv ++ namesCalledE i
  | .binop _ a b => namesCalledE a ++ namesCalledE b
  | .unop _ a => namesCalledE a
  | .condExpr t c e => namesCalledE t ++ namesCalledE c ++ namesCalledE e
  | .lam _ body => namesCalledE body
  | .listComp elem _ iter => namesCalledE elem ++ namesCalledE iter
  | .dictComp key val _ iter =>
      namesCalledE key ++ namesCalledE val ++ namesCalledE iter
  | .awaitExpr e => namesCalledE e

/-- All function and method names applied in one call argument. -/
def namesCalledA : PyArg → List String
  | .pos e => namesCalledE e
  | .kw _ e => namesCalledE e

/-- All function and method names applied in a call-argument list. -/
def namesCalledAs : PyArgs → List String
  | .nil => []
  | .cons a rest => namesCalledA a ++ namesCalledAs rest

/-- All function and method names applied in an expression list. -/
def namesCalledEs : PyExprs → List String
  | .nil => []
  | .cons e rest => namesCalledE e ++ namesCalledEs rest

end

mutual

/-- All function and method names applied anywhere in a statement. -/
def namesCalledS : PyStmt → List String
  | .importModule _ => []
  | .importAs _ _ => []
  | .fromImport _ _ => []
  | .assign _ e => namesCalledE e
  | .setAttr _ _ e => namesCalledE e
  | .exprStmt e => namesCalledE e
  | .funcDef _ _ body => namesCalledSs body
  | .asyncFuncDef _ _ body => namesCalledSs body
  | .returnStmt e => namesCalledE e
  | .forIn _ iter body => namesCalledE iter ++ namesCalledSs body
  | .whileLoop c body => namesCalledE c ++ namesCalledSs body
  | .ifStmt c thn els =>
      namesCalledE c ++ namesCalledSs thn ++ namesCalledSs els
  | .tryExcept body handler => namesCalledSs body ++ namesCalledSs handler
  | .classDef _ body => namesCalledSs body
  | .raiseStmt e => namesCalledE e
  | .withStmt e body => namesCalledE e ++ namesCalledSs body
  | .magic _ => []
  | .comment _ => []

/-- All function and method names applied in a statement list. -/
def namesCalledSs : PyStmts → List String
  | .nil => []
  | .cons s rest => namesCalledS s ++ namesCalledSs rest

end

/-- All function and method names applied anywhere in a code cell. -/
def cellNamesCalled (cell : List PyStmt) : List String :=
  namesCalledSs (PyStmts.ofList cell)

mutual

/-- The modules imported anywhere in a statement. -/
def importsS : PyStmt → List String
  | .importModule m => [m]
  | .importAs m _ => [m]
  | .fromImport m _ => [m]
  | .funcDef _ _ body => importsSs body
  | .asyncFuncDef _ _ body => importsSs body
  | .forIn _ _ body => importsSs body
  | .whileLoop _ body => importsSs body
  | .ifStmt _ thn els => importsSs thn ++ importsSs els
  | .tryExcept body handler => importsSs body ++ importsSs handler
  | .classDef _ body => importsSs body
  | .withStmt _ body => importsSs body
  | _ => []

/-- The modules imported anywhere in a statement list. -/
def importsSs : PyStmts → List String
  | .nil => []
  | .cons s rest => importsS s ++ importsSs rest

end

/-- The modules imported anywhere in a code cell. -/
def cellImports (cell : List PyStmt) : List String :=
  importsSs (PyStmts.ofList cell)

/-! ## Transcription helpers -/

/-- A bare Python name. -/
def nm (s : String) : PyExpr := .name s

/-- An integer literal. -/
def iL (n : Int) : PyExpr := .intLit n

/-- `a + b`. -/
def pAdd (a b : PyExpr) : PyExpr := .binop "+" a b

/-- `a - b`. -/
def pSub (a b : PyExpr) : PyExpr := .binop "-" a b

/-- `a * b`. -/
def pMul (a b : PyExpr) : PyExpr := .binop "*" a b

/-- `a / b`. -/
def pDiv (a b : PyExpr) : PyExpr := .binop "/" a b

/-- `-a`. -/
def pNeg (a : PyExpr) : PyExpr := .unop "-" a

/-! ## The Grover optimizer notebook

`Quantum Optimization/04_grover_optimizer.ipynb`, code cells in order.
Trailing `#` comments of the source are transcribed as separate `comment`
statements adjacent to the statement they annotate. -/

/-- Grover notebook, code cell 1: the imports. -/
def groverCell1 : List PyStmt :=
  [ .fromImport "qiskit_algorithms" ["NumPyMinimumEigensolver"],
    .fromImport "qiskit.primitives" ["Sampler"],
    .fromImport "qiskit_optimization.algorithms"
      ["GroverOptimizer", "MinimumEigenOptimizer"],
    .fromImport "qiskit_optimization.translators" ["from_docplex_mp"],
    .fromImport "docplex.mp.model" ["Model"] ]

/-- The objective expression passed to `model.minimize`:
`-x0 + 2 * x1 - 3 * x2 - 2 * x0 * x2 - 1 * x1 * x2`. -/
def groverObjectiveExpr : PyExpr :=
  pSub
    (pSub
      (pSub
        (pAdd (pNeg (nm "x0")) (pMul (iL 2) (nm "x1")))
        (pMul (iL 3) (nm "x2")))
      (pMul (pMul (iL 2) (nm "x0")) (nm "x2")))
    (pMul (pMul (iL 1) (nm "x1")) (nm "x2"))

/-- Grover notebook, code cell 2: build the docplex model and the
`QuadraticProgram`. -/
def groverCell2 : List PyStmt :=
  [ .assign "model" (pCall "Model" []),
    .assign "x0" (pMeth (nm "model") "binary_var" [pK "name" (.strLit "x0")]),
    .assign "x1" (pMeth (nm "model") "binary_var" [pK "name" (.strLit "x1")]),
    .assign "x2" (pMeth (nm "model") "binary_var" [pK "name" (.strLit "x2")]),
    .exprStmt (pMeth (nm "model") "minimize" [pA groverObjectiveExpr]),
    .assign "qp" (pCall "from_docplex_mp" [pA (nm "model")]),
    pPrint (pMeth (nm "qp") "prettyprint" []) ]

/-- The `GroverOptimizer(6, num_iterations=10, sampler=Sampler())`
constructor call. -/
def groverCtorCall : PyExpr :=
  pCall "GroverOptimizer"
    [pA (iL 6), pK "num_iterations" (iL 10), pK "sampler" (pCall "Sampler" [])]

/-- Grover notebook, code cell 3: construct and run the `GroverOptimizer`. -/
def groverCell3 : List PyStmt :=
  [ .assign "grover_optimizer" groverCtorCall,
    .assign "results" (pMeth (nm "grover_optimizer") "solve" [pA (nm "qp")]),
    pPrint (pMeth (nm "results") "prettyprint" []) ]

/-- Grover notebook, code cell 4: the exact reference solver. -/
def groverCell4 : List PyStmt :=
  [ .assign "exact_solver"
      (pCall "MinimumEigenOptimizer" [pA (pCall "NumPyMinimumEigensolver" [])]),
    .assign "exact_result" (pMeth (nm "exact_solver") "solve" [pA (nm "qp")]),
    pPrint (pMeth (nm "exact_result") "prettyprint" []) ]

/-- Grover notebook, code cell 5: version-table magics. -/
def groverCell5 : List PyStmt :=
  [ .importModule "qiskit.tools.jupyter",
    .magic "qiskit_version_table",
    .magic "qiskit_copyright" ]

/-- Grover notebook, code cell 6: empty trailing cell. -/
def groverCell6 : List PyStmt := []

/-- The code cells of the Grover notebook, in order. -/
def groverCodeCells : List (List PyStmt) :=
  [groverCell1, groverCell2, groverCell3, groverCell4, groverCell5, groverCell6]

/-! ## The portfolio optimization notebook

First notebook document in `Quantum Finance/01_portfolio_optimization.ipynb`. -/

/-- Portfolio notebook, code cell 1: the imports. -/
def portfolioCell1 : List PyStmt :=
  [ .fromImport "qiskit.circuit.library" ["TwoLocal"],
    .fromImport "qiskit.result" ["QuasiDistribution"],
    .fromImport "qiskit_aer.primitives" ["Sampler"],
    .fromImport "qiskit_algorithms" ["NumPyMinimumEigensolver", "QAOA", "SamplingVQE"],
    .fromImport "qiskit_algorithms.optimizers" ["COBYLA"],
    .fromImport "qiskit_finance.applications.optimization" ["PortfolioOptimization"],
    .fromImport "qiskit_finance.data_providers" ["RandomDataProvider"],
    .fromImport "qiskit_optimization.algorithms" ["MinimumEigenOptimizer"],
    .importAs "numpy" "np",
    .importAs "matplotlib.pyplot" "plt",
    .importModule "datetime" ]

/-- Portfolio notebook, code cell 2: random problem data. -/
def portfolioCell2 : List PyStmt :=
  [ .comment "set number of assets (= number of qubits)",
    .assign "num_assets" (iL 4),
    .assign "seed" (iL 123),
    .comment "Generate expected return and covariance matrix from (random) time-series",
    .assign "stocks"
      (.listComp (.binop "%" (.strLit "TICKER%s") (nm "i")) "i"
        (pCall "range" [pA (nm "num_assets")])),
    .assign "data"
      (pCall "RandomDataProvider"
        [pK "tickers" (nm "stocks"),
         pK "start" (pCall "datetime.datetime" [pA (iL 2016), pA (iL 1), pA (iL 1)]),
         pK "end" (pCall "datetime.datetime" [pA (iL 2016), pA (iL 1), pA (iL 30)]),
         pK "seed" (nm "seed")]),
    .exprStmt (pMeth (nm "data") "run" []),
    .assign "mu" (pMeth (nm "data") "get_period_return_mean_vector" []),
    .assign "sigma" (pMeth (nm "data") "get_period_return_covariance_matrix" []) ]

/-- Portfolio notebook, code cell 3: plot the covariance matrix. -/
def portfolioCell3 : List PyStmt :=
  [ .comment "plot sigma",
    .exprStmt (pCall "plt.imshow" [pA (nm "sigma"), pK "interpolation" (.strLit "nearest")]),
    .exprStmt (pCall "plt.show" []) ]

/-- The `PortfolioOptimization(expected_returns=mu, covariances=sigma,
risk_factor=q, budget=budget)` constructor call. -/
def portfolioCtorCall : PyExpr :=
  pCall "PortfolioOptimization"
    [pK "expected_returns" (nm "mu"), pK "covariances" (nm "sigma"),
     pK "risk_factor" (nm "q"), pK "budget" (nm "budget")]

/-- Portfolio notebook, code cell 4: build the `QuadraticProgram`. -/
def portfolioCell4 : List PyStmt :=
  [ .assign "q" (.decLit 5 1),
    .comment "set risk factor",
    .assign "budget" (.binop "//" (nm "num_assets") (iL 2)),
    .comment "set budget",
    .assign "penalty" (nm "num_assets"),
    .comment "set parameter to scale the budget penalty term",
    .assign "portfolio" portfolioCtorCall,
    .assign "qp" (pMeth (nm "portfolio") "to_quadratic_program" []),
    .exprStmt (nm "qp") ]

/-- The body of the `print_result` helper function. -/
def printResultBody : List PyStmt :=
  [ .assign "selection" (.attr (nm "result") "x"),
    .assign "value" (.attr (nm "result") "fval"),
    .exprStmt (pCall "print"
      [pA (pMeth (.strLit "Optimal: selection \x7b\x7d, value \x7b:.4f\x7d") "format"
        [pA (nm "selection"), pA (nm "value")])]),
    .assign "eigenstate" (.attr (.attr (nm "result") "min_eigen_solver_result") "eigenstate"),
    .assign "probabilities"
      (.condExpr
        (pMeth (nm "eigenstate") "binary_probabilities" [])
        (pCall "isinstance" [pA (nm "eigenstate"), pA (nm "QuasiDistribution")])
        (.dictComp (nm "k") (.binop "**" (pCall "np.abs" [pA (nm "v")]) (iL 2))
          ["k", "v"] (pMeth (pMeth (nm "eigenstate") "to_dict" []) "items" []))),
    pPrint (.strLit "\n----------------- Full result ---------------------"),
    pPrint (.strLit "selection\tvalue\t\tprobability"),
    pPrint (.strLit "---------------------------------------------------"),
    .assign "probabilities"
      (pCall "sorted"
        [pA (pMeth (nm "probabilities") "items" []),
         pK "key" (.lam ["x"] (.index (nm "x") (iL 1))),
         pK "reverse" (nm "True")]),
    pFor ["k", "v"] (nm "probabilities")
      [ .assign "x"
          (pCall "np.array"
            [pA (.listComp (pCall "int" [pA (nm "i")]) "i"
              (pCall "list" [pA (pCall "reversed" [pA (nm "k")])]))]),
        .assign "value"
          (pMeth (.attr (pMeth (nm "portfolio") "to_quadratic_program" []) "objective")
            "evaluate" [pA (nm "x")]),
        .exprStmt (pCall "print"
          [pA (.binop "%" (.strLit "%10s\t%.4f\t\t%.4f")
            (pTuple [nm "x", nm "value", nm "v"]))]) ] ]

/-- Portfolio notebook, code cell 5: definition of `print_result`. -/
def portfolioCell5 : List PyStmt :=
  [pDef "print_result" ["result"] printResultBody]

/-- Portfolio notebook, code cell 6: exact classical reference solve. -/
def portfolioCell6 : List PyStmt :=
  [ .assign "exact_mes" (pCall "NumPyMinimumEigensolver" []),
    .assign "exact_eigensolver" (pCall "MinimumEigenOptimizer" [pA (nm "exact_mes")]),
    .assign "result" (pMeth (nm "exact_eigensolver") "solve" [pA (nm "qp")]),
    .exprStmt (pCall "print_result" [pA (nm "result")]) ]

/-- Portfolio notebook, code cell 7: `SamplingVQE` solve. -/
def portfolioCell7 : List PyStmt :=
  [ .fromImport "qiskit_algorithms.utils" ["algorithm_globals"],
    .setAttr "algorithm_globals" "random_seed" (iL 1234),
    .assign "cobyla" (pCall "COBYLA" []),
    .exprStmt (pMeth (nm "cobyla") "set_options" [pK "maxiter" (iL 500)]),
    .assign "ry"
      (pCall "TwoLocal"
        [pA (nm "num_assets"), pA (.strLit "ry"), pA (.strLit "cz"),
         pK "reps" (iL 3), pK "entanglement" (.strLit "full")]),
    .assign "svqe_mes"
      (pCall "SamplingVQE"
        [pK "sampler" (pCall "Sampler" []), pK "ansatz" (nm "ry"),
         pK "optimizer" (nm "cobyla")]),
    .assign "svqe" (pCall "MinimumEigenOptimizer" [pA (nm "svqe_mes")]),
    .assign "result" (pMeth (nm "svqe") "solve" [pA (nm "qp")]),
    .exprStmt (pCall "print_result" [pA (nm "result")]) ]

/-- Portfolio notebook, code cell 8: `QAOA` solve. -/
def portfolioCell8 : List PyStmt :=
  [ .setAttr "algorithm_globals" "random_seed" (iL 1234),
    .assign "cobyla" (pCall "COBYLA" []),
    .exprStmt (pMeth (nm "cobyla") "set_options" [pK "maxiter" (iL 250)]),
    .assign "qaoa_mes"
      (pCall "QAOA"
        [pK "sampler" (pCall "Sampler" []), pK "optimizer" (nm "cobyla"),
         pK "reps" (iL 3)]),
    .assign "qaoa" (pCall "MinimumEigenOptimizer" [pA (nm "qaoa_mes")]),
    .assign "result" (pMeth (nm "qaoa") "solve" [pA (nm "qp")]),
    .exprStmt (pCall "print_result" [pA (nm "result")]) ]

/-- Portfolio notebook, code cell 9: version-table magics. -/
def portfolioCell9 : List PyStmt :=
  [ .importModule "qiskit.tools.jupyter",
    .magic "qiskit_version_table",
    .magic "qiskit_copyright" ]

/-- Portfolio notebook, code cell 10: empty trailing cell. -/
def portfolioCell10 : List PyStmt := []

/-- The code cells of the portfolio notebook, in order. -/
def portfolioCodeCells : List (List PyStmt) :=
  [portfolioCell1, portfolioCell2, portfolioCell3, portfolioCell4,
   portfolioCell5, portfolioCell6, portfolioCell7, portfolioCell8,
   portfolioCell9, portfolioCell10]

/-! ## The excited states notebook

Second notebook document held in `Quantum Finance/01_portfolio_optimization.ipynb`. -/

/-- Excited-states notebook, code cell 1: define the H₂ problem. -/
def excitedCell1 : List PyStmt :=
  [ .fromImport "qiskit_nature.units" ["DistanceUnit"],
    .fromImport "qiskit_nature.second_q.drivers" ["PySCFDriver"],
    .assign "driver"
      (pCall "PySCFDriver"
        [pK "atom" (.strLit "H 0 0 0; H 0 0 0.735"),
         pK "basis" (.strLit "sto3g"),
         pK "charge" (iL 0),
         pK "spin" (iL 0),
         pK "unit" (.attr (nm "DistanceUnit") "ANGSTROM")]),
    .assign "es_problem" (pMeth (nm "driver") "run" []) ]

/-- Excited-states notebook, code cell 2: the Jordan-Wigner mapper. -/
def excitedCell2 : List PyStmt :=
  [ .fromImport "qiskit_nature.second_q.mappers" ["JordanWignerMapper"],
    .assign "mapper" (pCall "JordanWignerMapper" []) ]

/-- Excited-states notebook, code cell 3: `NumPyEigensolver` with the
default filter criterion. -/
def excitedCell3 : List PyStmt :=
  [ .fromImport "qiskit_algorithms" ["NumPyEigensolver"],
    .assign "numpy_solver"
      (pCall "NumPyEigensolver"
        [pK "k" (iL 4),
         pK "filter_criterion"
           (pMeth (nm "es_problem") "get_default_filter_criterion" [])]) ]

/-- Excited-states notebook, code cell 4: the VQE/UCCSD ground-state solver
and the qEOM solver. -/
def excitedCell4 : List PyStmt :=
  [ .fromImport "qiskit_algorithms" ["VQE"],
    .fromImport "qiskit_algorithms.optimizers" ["SLSQP"],
    .fromImport "qiskit.primitives" ["Estimator"],
    .fromImport "qiskit_nature.second_q.algorithms"
      ["GroundStateEigensolver", "QEOM", "EvaluationRule"],
    .fromImport "qiskit_nature.second_q.circuit.library" ["HartreeFock", "UCCSD"],
    .assign "ansatz"
      (pCall "UCCSD"
        [pA (.attr (nm "es_problem") "num_spatial_orbitals"),
         pA (.attr (nm "es_problem") "num_particles"),
         pA (nm "mapper"),
         pK "initial_state"
           (pCall "HartreeFock"
             [pA (.attr (nm "es_problem") "num_spatial_orbitals"),
              pA (.attr (nm "es_problem") "num_particles"),
              pA (nm "mapper")])]),
    .assign "estimator" (pCall "Estimator" []),
    .comment "This first part sets the ground state solver",
    .comment "see more about this part in the ground state calculation tutorial",
    .assign "solver" (pCall "VQE" [pA (nm "estimator"), pA (nm "ansatz"), pA (pCall "SLSQP" [])]),
    .setAttr "solver" "initial_point"
      (pMul (pList [.decLit 0 1]) (.attr (nm "ansatz") "num_parameters")),
    .assign "gse" (pCall "GroundStateEigensolver" [pA (nm "mapper"), pA (nm "solver")]),
    .comment "The qEOM algorithm is simply instantiated with the chosen ground state solver and Estimator primitive",
    .assign "qeom_excited_states_solver"
      (pCall "QEOM"
        [pA (nm "gse"), pA (nm "estimator"), pA (.strLit "sd"),
         pA (.attr (nm "EvaluationRule") "ALL")]) ]

/-- Excited-states notebook, code cell 5: run and compare both solvers. -/
def excitedCell5 : List PyStmt :=
  [ .fromImport "qiskit_nature.second_q.algorithms" ["ExcitedStatesEigensolver"],
    .assign "numpy_excited_states_solver"
      (pCall "ExcitedStatesEigensolver" [pA (nm "mapper"), pA (nm "numpy_solver")]),
    .assign "numpy_results"
      (pMeth (nm "numpy_excited_states_solver") "solve" [pA (nm "es_problem")]),
    .assign "qeom_results"
      (pMeth (nm "qeom_excited_states_solver") "solve" [pA (nm "es_problem")]),
    pPrint (nm "numpy_results"),
    pPrint (.strLit "\n\n"),
    pPrint (nm "qeom_results") ]

/-- Excited-states notebook, code cell 6: the custom `filter_criterion`
(particle number 2, magnetization 0) and the filtered NumPy solve. -/
def excitedCell6 : List PyStmt :=
  [ .importAs "numpy" "np",
    pDef "filter_criterion" ["eigenstate", "eigenvalue", "aux_values"]
      [ .returnStmt
          (.binop "and"
            (pCall "np.isclose"
              [pA (.index (.index (nm "aux_values") (.strLit "ParticleNumber")) (iL 0)),
               pA (.decLit 20 1)])
            (pCall "np.isclose"
              [pA (.index (.index (nm "aux_values") (.strLit "Magnetization")) (iL 0)),
               pA (.decLit 0 1)])) ],
    .assign "new_numpy_solver"
      (pCall "NumPyEigensolver"
        [pK "k" (iL 4), pK "filter_criterion" (nm "filter_criterion")]),
    .assign "new_numpy_excited_states_solver"
      (pCall "ExcitedStatesEigensolver" [pA (nm "mapper"), pA (nm "new_numpy_solver")]),
    .assign "new_numpy_results"
      (pMeth (nm "new_numpy_excited_states_solver") "solve" [pA (nm "es_problem")]),
    pPrint (nm "new_numpy_results") ]

/-- Excited-states notebook, code cell 7: version-table magics. -/
def excitedCell7 : List PyStmt :=
  [ .importModule "qiskit.tools.jupyter",
    .magic "qiskit_version_table",
    .magic "qiskit_copyright" ]

/-- The code cells of the excited-states notebook, in order. -/
def excitedCodeCells : List (List PyStmt) :=
  [excitedCell1, excitedCell2, excitedCell3, excitedCell4, excitedCell5,
   excitedCell6, excitedCell7]

/-! ## The QuTiP quantum-object notebook

`src/unnamed/part_000`, code cells in order. -/

/-- QuTiP notebook, code cell 1. -/
def qutipCell1 : List PyStmt := [.fromImport "qutip" ["*"]]

/-- QuTiP notebook, code cell 2. -/
def qutipCell2 : List PyStmt :=
  [.importAs "numpy" "np", .importAs "matplotlib.pyplot" "plt"]

/-- QuTiP notebook, code cell 3: `print(Qobj())`. -/
def qutipCell3 : List PyStmt := [pPrint (pCall "Qobj" [])]

/-- QuTiP notebook, code cell 4: a ket from a nested list. -/
def qutipCell4 : List PyStmt :=
  [pPrint (pCall "Qobj"
    [pA (pList [pList [iL 1], pList [iL 2], pList [iL 3], pList [iL 4], pList [iL 5]])])]

/-- QuTiP notebook, code cell 5: a bra from a NumPy row vector. -/
def qutipCell5 : List PyStmt :=
  [ .assign "x" (pCall "np.array" [pA (pList [pList [iL 1, iL 2, iL 3, iL 4, iL 5]])]),
    pPrint (pCall "Qobj" [pA (nm "x")]) ]

/-- QuTiP notebook, code cell 6: an operator from a random matrix. -/
def qutipCell6 : List PyStmt :=
  [ .assign "r" (pCall "np.random.rand" [pA (iL 8), pA (iL 8)]),
    pPrint (pCall "Qobj" [pA (nm "r")]) ]

/-- QuTiP notebook, code cell 7: `basis(7,5)`. -/
def qutipCell7 : List PyStmt := [.exprStmt (pCall "basis" [pA (iL 7), pA (iL 5)])]

/-- QuTiP notebook, code cell 8: `coherent(10,0.7-0.5j)`. -/
def qutipCell8 : List PyStmt :=
  [.exprStmt (pCall "coherent" [pA (iL 10), pA (pSub (.decLit 7 1) (.imagLit 5 1))])]

/-- QuTiP notebook, code cell 9: `destroy(4)`. -/
def qutipCell9 : List PyStmt := [.exprStmt (pCall "destroy" [pA (iL 4)])]

/-- QuTiP notebook, code cell 10: `sigmaz()`. -/
def qutipCell10 : List PyStmt := [.exprStmt (pCall "sigmaz" [])]

/-- QuTiP notebook, code cell 11: `jmat(5/2.0,"+")`. -/
def qutipCell11 : List PyStmt :=
  [.exprStmt (pCall "jmat" [pA (pDiv (iL 5) (.decLit 20 1)), pA (.strLit "+")])]

/-- QuTiP notebook, code cell 12: `q = destroy(4); q.dims`. -/
def qutipCell12 : List PyStmt :=
  [ .assign "q" (pCall "destroy" [pA (iL 4)]),
    .exprStmt (.attr (nm "q") "dims") ]

/-- QuTiP notebook, code cell 13: `q.shape`. -/
def qutipCell13 : List PyStmt := [.exprStmt (.attr (nm "q") "shape")]

/-- QuTiP notebook, code cell 14: `q.type`. -/
def qutipCell14 : List PyStmt := [.exprStmt (.attr (nm "q") "type")]

/-- QuTiP notebook, code cell 15: `q.isherm`. -/
def qutipCell15 : List PyStmt := [.exprStmt (.attr (nm "q") "isherm")]

/-- QuTiP notebook, code cell 16: `q.data`. -/
def qutipCell16 : List PyStmt := [.exprStmt (.attr (nm "q") "data")]

/-- QuTiP notebook, code cell 17: Qobj arithmetic, `q + 5`. -/
def qutipCell17 : List PyStmt :=
  [ .assign "q" (pCall "destroy" [pA (iL 4)]),
    .assign "x" (pCall "sigmax" []),
    .exprStmt (pAdd (nm "q") (iL 5)) ]

/-- QuTiP notebook, code cell 18: `x * x`. -/
def qutipCell18 : List PyStmt := [.exprStmt (pMul (nm "x") (nm "x"))]

/-- QuTiP notebook, code cell 19: `q ** 3`. -/
def qutipCell19 : List PyStmt := [.exprStmt (.binop "**" (nm "q") (iL 3))]

/-- QuTiP notebook, code cell 20: `x / np.sqrt(2)`. -/
def qutipCell20 : List PyStmt :=
  [.exprStmt (pDiv (nm "x") (pCall "np.sqrt" [pA (iL 2)]))]

/-- QuTiP notebook, code cell 21: `basis(5, 3)`. -/
def qutipCell21 : List PyStmt := [.exprStmt (pCall "basis" [pA (iL 5), pA (iL 3)])]

/-- QuTiP notebook, code cell 22: `basis(5, 3).dag()`. -/
def qutipCell22 : List PyStmt :=
  [.exprStmt (pMeth (pCall "basis" [pA (iL 5), pA (iL 3)]) "dag" [])]

/-- QuTiP notebook, code cell 23: `coherent_dm(5, 1)`. -/
def qutipCell23 : List PyStmt :=
  [.exprStmt (pCall "coherent_dm" [pA (iL 5), pA (iL 1)])]

/-- QuTiP notebook, code cell 24: `coherent_dm(5, 1).diag()`. -/
def qutipCell24 : List PyStmt :=
  [.exprStmt (pMeth (pCall "coherent_dm" [pA (iL 5), pA (iL 1)]) "diag" [])]

/-- QuTiP notebook, code cell 25: `coherent_dm(5, 1).diag()` again. -/
def qutipCell25 : List PyStmt :=
  [.exprStmt (pMeth (pCall "coherent_dm" [pA (iL 5), pA (iL 1)]) "diag" [])]

/-- QuTiP notebook, code cell 26: `coherent_dm(5, 1).norm()`. -/
def qutipCell26 : List PyStmt :=
  [.exprStmt (pMeth (pCall "coherent_dm" [pA (iL 5), pA (iL 1)]) "norm" [])]

/-- QuTiP notebook, code cell 27: `coherent_dm(5, 1).full()`. -/
def qutipCell27 : List PyStmt :=
  [.exprStmt (pMeth (pCall "coherent_dm" [pA (iL 5), pA (iL 1)]) "full" [])]

/-- QuTiP notebook, code cell 28: `coherent_dm(5, 1).full()` again. -/
def qutipCell28 : List PyStmt :=
  [.exprStmt (pMeth (pCall "coherent_dm" [pA (iL 5), pA (iL 1)]) "full" [])]

/-- QuTiP notebook, code cell 29: `coherent_dm(5, 1).tr()`. -/
def qutipCell29 : List PyStmt :=
  [.exprStmt (pMeth (pCall "coherent_dm" [pA (iL 5), pA (iL 1)]) "tr" [])]

/-- QuTiP notebook, code cell 30: `(basis(4, 2) + basis(4, 1)).unit()`. -/
def qutipCell30 : List PyStmt :=
  [.exprStmt (pMeth
    (pAdd (pCall "basis" [pA (iL 4), pA (iL 2)]) (pCall "basis" [pA (iL 4), pA (iL 1)]))
    "unit" [])]

/-- QuTiP notebook, code cell 31: empty trailing cell. -/
def qutipCell31 : List PyStmt := []

/-- The code cells of the QuTiP notebook, in order. -/
def qutipCodeCells : List (List PyStmt) :=
  [qutipCell1, qutipCell2, qutipCell3, qutipCell4, qutipCell5, qutipCell6,
   qutipCell7, qutipCell8, qutipCell9, qutipCell10, qutipCell11, qutipCell12,
   qutipCell13, qutipCell14, qutipCell15, qutipCell16, qutipCell17,
   qutipCell18, qutipCell19, qutipCell20, qutipCell21, qutipCell22,
   qutipCell23, qutipCell24, qutipCell25, qutipCell26, qutipCell27,
   qutipCell28, qutipCell29, qutipCell30, qutipCell31]

/-- All four notebook documents of the repository, as lists of code cells. -/
def notebooks : List (List (List PyStmt)) :=
  [groverCodeCells, portfolioCodeCells, excitedCodeCells, qutipCodeCells]

/-- Every code cell of every notebook of the repository. -/
def allCodeCells : List (List PyStmt) :=
  groverCodeCells ++ portfolioCodeCells ++ excitedCodeCells ++ qutipCodeCells

/-! ## Cell-shape predicates used by the claims -/

/-- Whether an expression is a function or method call. -/
def isCallExpr : PyExpr → Bool
  | .call _ _ => true
  | .methodCall _ _ _ => true
  | _ => false

/-- Whether an expression is a `print(…)` call. -/
def isPrintCall : PyExpr → Bool
  | .call "print" _ => true
  | _ => false

/-- Whether a statement is a `print(…)` statement. -/
def isPrintStmt : PyStmt → Bool
  | .exprStmt e => isPrintCall e
  | _ => false

/-- The literal reading of "the cell consists of a single library call plus
a print statement": either one `print` applied to a single call, or a call
(possibly assigned) followed by a print statement. -/
def isSingleCallPlusPrint : List PyStmt → Bool
  | [.exprStmt (.call "print" (.cons (.pos e) .nil))] => isCallExpr e
  | [s, t] =>
    (match s with
     | .assign _ e => isCallExpr e
     | .exprStmt e => isCallExpr e
     | _ => false) && isPrintStmt t
  | _ => false

/-- A cell with no branching construct: no conditional expression, no `if`
statement, no `while` loop. -/
def branchFree (cell : List PyStmt) : Bool :=
  (cellFeats cell).conds == 0 && (cellFeats cell).ifs == 0 &&
    (cellFeats cell).whiles == 0

/-- Total number of branching constructs in a cell. -/
def branchCount (cell : List PyStmt) : Nat :=
  (cellFeats cell).conds + (cellFeats cell).ifs + (cellFeats cell).whiles

/-- A cell with no failure-handling construct: no `try`/`except`, no
`raise`, and no `while` loop that could implement a retry. -/
def noFailureHandling (cell : List PyStmt) : Bool :=
  (cellFeats cell).tries == 0 && (cellFeats cell).raises == 0 &&
    (cellFeats cell).whiles == 0

/-- A cell that defines no class. -/
def classFree (cell : List PyStmt) : Bool :=
  (cellFeats cell).classes == 0

/-- Python standard-library modules providing threads, processes,
asynchronous tasks or schedulers. -/
def concurrencyModules : List String :=
  ["threading", "_thread", "multiprocessing", "asyncio", "concurrent",
   "concurrent.futures", "subprocess", "queue", "sched", "signal"]

/-- Function and method names that create threads, processes or async
tasks. -/
def concurrencyCallNames : List String :=
  ["Thread", "Process", "Pool", "ThreadPoolExecutor", "ProcessPoolExecutor",
   "create_task", "ensure_future", "run_coroutine_threadsafe",
   "start_new_thread", "fork", "spawn"]

/-- A cell with no concurrency construct: no async definition or `await`,
no import of a concurrency module, and no call that creates a thread,
process or task. -/
def concFree (cell : List PyStmt) : Bool :=
  (cellFeats cell).asyncs == 0 &&
    (cellImports cell).all (fun m => !(concurrencyModules.contains m)) &&
    (cellNamesCalled cell).all (fun f => !(concurrencyCallNames.contains f))

/-- Statement kinds that merely construct instances, configure or read
them: imports, assignments of expressions, attribute assignments, bare
expression statements (including prints), magics and comments.  Function,
class and control-flow definitions are not of this kind. -/
def isConstructOrReadStmt : PyStmt → Bool
  | .importModule _ => true
  | .importAs _ _ => true
  | .fromImport _ _ => true
  | .assign _ _ => true
  | .setAttr _ _ _ => true
  | .exprStmt _ => true
  | .magic _ => true
  | .comment _ => true
  | _ => false

/-- The reading of "merely constructs instances via library constructors
and reads result fields" for a whole cell. -/
def merelyConstructsAndReads (cell : List PyStmt) : Bool :=
  cell.all isConstructOrReadStmt

/-- Whether a cell applies a method named `solve` somewhere. -/
def cellCallsSolve (cell : List PyStmt) : Bool :=
  (cellNamesCalled cell).contains "solve"

/-- Whether a notebook invokes some solver object's `solve` method. -/
def usesSolveCall (nb : List (List PyStmt)) : Bool :=
  nb.any cellCallsSolve

/-- Whether a notebook constructs a declarative problem: a docplex `Model`,
a `PortfolioOptimization` instance, or a `PySCFDriver` molecule. -/
def definesProblem (nb : List (List PyStmt)) : Bool :=
  nb.any (fun c =>
    (cellNamesCalled c).contains "Model" ||
    (cellNamesCalled c).contains "PortfolioOptimization" ||
    (cellNamesCalled c).contains "PySCFDriver")

/-- The declarative-problem → library-solver → print pattern of the spec:
the notebook defines a problem, passes it to a solver object's `solve`
method, and prints a result object. -/
def followsSolverPattern (nb : List (List PyStmt)) : Bool :=
  definesProblem nb && usesSolveCall nb &&
    nb.any (fun c => (cellNamesCalled c).contains "print")

/-- Whether a notebook applies a function or method with the given name. -/
def notebookCalls (nb : List (List PyStmt)) (f : String) : Bool :=
  nb.any (fun c => (cellNamesCalled c).contains f)

mutual

/-- Every call of the function named `fn` in an expression has arguments
satisfying `p`. -/
def callsOkE (fn : String) (p : PyArgs → Bool) : PyExpr → Bool
  | .name _ => true
  | .intLit _ => true
  | .decLit _ _ => true
  | .imagLit _ _ => true
  | .strLit _ => true
  | .listLit xs => callsOkEs fn p xs
  | .tupleLit xs => callsOkEs fn p xs
  | .call g args => (g != fn || p args) && callsOkAs fn p args
  | .methodCall recv _ args => callsOkE fn p recv && callsOkAs fn p args
  | .attr recv _ => callsOkE fn p recv
  | .index recv i => callsOkE fn p recv && callsOkE fn p i
  | .binop _ a b => callsOkE fn p a && callsOkE fn p b
  | .unop _ a => callsOkE fn p a
  | .condExpr t c e => callsOkE fn p t && callsOkE fn p c && callsOkE fn p e
  | .lam _ body => callsOkE fn p body
  | .listComp elem _ iter => callsOkE fn p elem && callsOkE fn p iter
  | .dictComp key val _ iter =>
      callsOkE fn p key && callsOkE fn p val && callsOkE fn p iter
  | .awaitExpr e => callsOkE fn p e

/-- Every call of `fn` in one argument has arguments satisfying `p`. -/
def callsOkA (fn : String) (p : PyArgs → Bool) : PyArg → Bool
  | .pos e => callsOkE fn p e
  | .kw _ e => callsOkE fn p e

/-- Every call of `fn` in an argument list has arguments satisfying `p`. -/
def callsOkAs (fn : String) (p : PyArgs → Bool) : PyArgs → Bool
  | .nil => true
  | .cons a rest => callsOkA fn p a && callsOkAs fn p rest

/-- Every call of `fn` in an expression list has arguments satisfying `p`. -/
def callsOkEs (fn : String) (p : PyArgs → Bool) : PyExprs → Bool
  | .nil => true
  | .cons e rest => callsOkE fn p e && callsOkEs fn p rest

end

mutual

/-- Every call of `fn` in a statement has arguments satisfying `p`. -/
def callsOkS (fn : String) (p : PyArgs → Bool) : PyStmt → Bool
  | .importModule _ => true
  | .importAs _ _ => true
  | .fromImport _ _ => true
  | .assign _ e => callsOkE fn p e
  | .setAttr _ _ e => callsOkE fn p e
  | .exprStmt e => callsOkE fn p e
  | .funcDef _ _ body => callsOkSs fn p body
  | .asyncFuncDef _ _ body => callsOkSs fn p body
  | .returnStmt e => callsOkE fn p e
  | .forIn _ iter body => callsOkE fn p iter && callsOkSs fn p body
  | .whileLoop c body => callsOkE fn p c && callsOkSs fn p body
  | .ifStmt c thn els =>
      callsOkE fn p c && callsOkSs fn p thn && callsOkSs fn p els
  | .tryExcept body handler => callsOkSs fn p body && callsOkSs fn p handler
  | .classDef _ body => callsOkSs fn p body
  | .raiseStmt e => callsOkE fn p e
  | .withStmt e body => callsOkE fn p e && callsOkSs fn p body
  | .magic _ => true
  | .comment _ => true

/-- Every call of `fn` in a statement list has arguments satisfying `p`. -/
def callsOkSs (fn : String) (p : PyArgs → Bool) : PyStmts → Bool
  | .nil => true
  | .cons s rest => callsOkS fn p s && callsOkSs fn p rest

end

/-- Every call of `fn` in a code cell has arguments satisfying `p`. -/
def cellCallsOk (fn : String) (p : PyArgs → Bool) (cell : List PyStmt) : Bool :=
  callsOkSs fn p (PyStmts.ofList cell)

/-- The argument shape `(value-qubit count, num_iterations=…, sampler=Sampler())`
of a `GroverOptimizer` construction. -/
def groverSigArgs : PyArgs → Bool
  | .cons (.pos (.intLit _))
      (.cons (.kw "num_iterations" (.intLit _))
        (.cons (.kw "sampler" (.call "Sampler" .nil)) .nil)) => true
  | _ => false

/-- The argument shape `(expected_returns=…, covariances=…, risk_factor=…,
budget=…)` of a `PortfolioOptimization` construction. -/
def portfolioSigArgs : PyArgs → Bool
  | .cons (.kw "expected_returns" _)
      (.cons (.kw "covariances" _)
        (.cons (.kw "risk_factor" _)
          (.cons (.kw "budget" _) .nil))) => true
  | _ => false

/-! ## Recorded outputs of the Grover notebook (claim C1) -/

/-- The QUBO objective of the Grover notebook's docplex model,
`-x0 + 2 * x1 - 3 * x2 - 2 * x0 * x2 - 1 * x1 * x2`, as an integer
function of the binary variable values. -/
def quboObjective (x0 x1 x2 : ℤ) : ℤ :=
  -x0 + 2 * x1 - 3 * x2 - 2 * x0 * x2 - 1 * x1 * x2

/-- The value of a binary variable. -/
def bitVal (b : Bool) : ℤ := if b then 1 else 0

/-- A recorded `prettyprint()` output of an optimization result: objective
function value, variable values and status line. -/
structure SolveResult where
  fval : ℚ
  x0 : ℚ
  x1 : ℚ
  x2 : ℚ
  status : String
deriving Repr, DecidableEq

/-- The recorded output of `grover_optimizer.solve(qp)`:
objective function value -6.0, x0=1.0, x1=0.0, x2=1.0, status SUCCESS. -/
def groverRecordedResult : SolveResult := ⟨-6, 1, 0, 1, "SUCCESS"⟩

/-- The recorded output of `exact_solver.solve(qp)` (the exact
`MinimumEigenOptimizer(NumPyMinimumEigensolver())`):
objective function value -6.0, x0=1.0, x1=0.0, x2=1.0, status SUCCESS. -/
def exactRecordedResult : SolveResult := ⟨-6, 1, 0, 1, "SUCCESS"⟩

/-! ## Recorded outputs of the excited states notebook (claim C9) -/

/-- Total excited-state energies (Hartree) of states 1, 2, 3 in the
recorded qEOM output block of the excited-states notebook. -/
def qeomTotalExcitedEnergies : List ℚ :=
  [-(524617761696 : ℚ) / 1000000000000,
   -(162755362097 : ℚ) / 1000000000000,
   (495055535308 : ℚ) / 1000000000000]

/-- Total excited-state energies (Hartree) of states 1, 2, 3 in the
recorded output of the NumPyEigensolver run with the custom
`filter_criterion` (particle number 2, magnetization 0). -/
def filteredNumpyTotalExcitedEnergies : List ℚ :=
  [-(524615555364 : ℚ) / 1000000000000,
   -(162753155796 : ℚ) / 1000000000000,
   (495057741618 : ℚ) / 1000000000000]

/-! ## Executable model of the `print_result` table (claim C10)

`print_result` turns the probabilities dictionary of a solver result into
the printed "Full result" table: it sorts the items in descending order of
probability (`sorted(probabilities.items(), key=lambda x: x[1],
reverse=True)`), and for each item builds the selection vector
`np.array([int(i) for i in list(reversed(k))])` from the reversed
bitstring key before evaluating the objective on it.  Bitstring keys are
modelled as lists of Booleans and the library objective
`portfolio.to_quadratic_program().objective.evaluate` is an arbitrary
function parameter. -/

/-- One printed row of the "Full result" table. -/
structure ResultRow where
  selection : List ℤ
  value : ℚ
  probability : ℚ
deriving Repr, DecidableEq

/-- "Comes no later in the descending-by-probability order": the second
component of `a` is at least that of `b`. -/
def probDesc (a b : List Bool × ℚ) : Prop := b.2 ≤ a.2

instance : DecidableRel probDesc := fun a b =>
  inferInstanceAs (Decidable (b.2 ≤ a.2))

instance : IsTotal (List Bool × ℚ) probDesc :=
  ⟨fun a b => (le_total b.2 a.2).imp id id⟩

instance : IsTrans (List Bool × ℚ) probDesc :=
  ⟨fun _ _ _ hab hbc => le_trans hbc hab⟩

/-- The rows of the "Full result" table printed by `print_result`, given
the objective function and the items of the probabilities dictionary. -/
def printResultRows (obj : List ℤ → ℚ) (probs : List (List Bool × ℚ)) :
    List ResultRow :=
  (probs.insertionSort probDesc).map (fun kv =>
    let x := kv.1.reverse.map bitVal
    ⟨x, obj x, kv.2⟩)

/-- The two helper functions the repository defines: `print_result` in the
portfolio notebook and `filter_criterion` in the excited-states notebook. -/
def isHelperFuncDef : PyStmt → Bool
  | .funcDef f _ _ => f == "print_result" || f == "filter_criterion"
  | _ => false

/-- Concrete objective used to instantiate the `print_result` model. -/
def c10WitnessObj : List ℤ → ℚ := fun _ => 0

/-- Concrete probabilities dictionary used to instantiate the
`print_result` model. -/
def c10WitnessProbs : List (List Bool × ℚ) := [([true, false, false, true], 1)]

/-!
## The claims

Each claim of the specification is settled by one theorem below.  All
structural claims are closed Boolean evaluations over the transcribed
cells and are discharged by kernel evaluation.
-/

/-- C1: the recorded result of `GroverOptimizer(6, num_iterations=10).solve`
on the fixed 3-variable QUBO equals the recorded result of the exact
`MinimumEigenOptimizer(NumPyMinimumEigensolver()).solve` on the same
`QuadraticProgram`: both report objective function value -6.0 at x0=1,
x1=0, x2=1 with status SUCCESS, and -6 is indeed the global minimum of the
QUBO objective `-x0 + 2*x1 - 3*x2 - 2*x0*x2 - x1*x2` over binary x,
attained at (1, 0, 1). -/
theorem c1_grover_matches_exact_minimum :
    groverRecordedResult = exactRecordedResult ∧
    groverRecordedResult.fval = -6 ∧
    groverRecordedResult.x0 = 1 ∧
    groverRecordedResult.x1 = 0 ∧
    groverRecordedResult.x2 = 1 ∧
    groverRecordedResult.status = "SUCCESS" ∧
    quboObjective 1 0 1 = -6 ∧
    (∀ a b c : Bool, -6 ≤ quboObjective (bitVal a) (bitVal b) (bitVal c)) :=
  ⟨rfl, rfl, rfl, rfl, rfl, rfl, by decide, by decide⟩

/-- C2 counterexample: the claim "every code cell consists of a single
library call plus a print statement, and no cell contains branching logic"
is false: the portfolio notebook's fifth code cell (index 10 among all
code cells) is the definition of the helper function `print_result`, which
is not a call-plus-print and contains a conditional expression
(`… if isinstance(eigenstate, QuasiDistribution) else …`). -/
theorem c2_counterexample_print_result_cell :
    allCodeCells.get? 10 = some portfolioCell5 ∧
    isSingleCallPlusPrint portfolioCell5 = false ∧
    branchFree portfolioCell5 = false ∧
    ¬ (∀ cell ∈ allCodeCells,
        isSingleCallPlusPrint cell = true ∧ branchFree cell = true ∧
        noFailureHandling cell = true ∧ concFree cell = true ∧
        classFree cell = true) :=
  ⟨rfl, by decide, by decide, by decide⟩

/-- C2 amended: every code cell consists only of imports, assignments,
expression statements (library calls and prints), magics, comments and the
two helper function definitions `print_result` and `filter_criterion`; no
cell contains try/except, raise, while-retry, concurrency constructs, or a
class definition; and the only branching construct in the entire
repository is the single conditional expression inside `print_result`. -/
theorem c2_amended_cells_straight_line_except_print_result :
    allCodeCells.all
      (fun cell => noFailureHandling cell && concFree cell && classFree cell) = true ∧
    allCodeCells.all
      (fun cell => cell.all (fun s => isConstructOrReadStmt s || isHelperFuncDef s)) = true ∧
    (allCodeCells.map branchCount).sum = 1 ∧
    branchCount portfolioCell5 = 1 := by
  refine ⟨by decide, by decide, by decide, by decide⟩

/-- C3 counterexample: the claim that all four notebooks follow the
problem → library-solver → print pattern, "in particular the QuTiP
quantum-object notebook", is false: the QuTiP notebook (index 3 in the
notebook list) invokes no solver object at all — no `solve` method is
applied anywhere in it. -/
theorem c3_counterexample_qutip_no_solver :
    notebooks.get? 3 = some qutipCodeCells ∧
    usesSolveCall qutipCodeCells = false ∧
    followsSolverPattern qutipCodeCells = false ∧
    notebooks.all followsSolverPattern = false :=
  ⟨rfl, by decide, by decide, by decide⟩

/-- C3 amended: the three Qiskit notebooks (Grover, portfolio, excited
states) each follow the pattern — they construct a declarative problem
(docplex `Model`, `PortfolioOptimization` arrays, or `PySCFDriver`
molecule), apply a solver object's `solve` method, and print the result —
while the QuTiP notebook invokes no solver: it constructs and displays
`Qobj` instances directly. -/
theorem c3_amended_qiskit_notebooks_follow_pattern :
    followsSolverPattern groverCodeCells = true ∧
    followsSolverPattern portfolioCodeCells = true ∧
    followsSolverPattern excitedCodeCells = true ∧
    usesSolveCall qutipCodeCells = false ∧
    notebookCalls qutipCodeCells "Qobj" = true := by
  refine ⟨by decide, by decide, by decide, by decide, by decide⟩

/-- C4: no code cell of any notebook contains recovery, retry, or failure
handling: there is no try/except handler, no raise statement, and no while
loop anywhere in the repository, so every library-raised exception
propagates directly to the notebook cell output. -/
theorem c4_no_failure_handling :
    allCodeCells.all noFailureHandling = true ∧
    (allCodeCells.map (fun c => (cellFeats c).tries)).sum = 0 ∧
    (allCodeCells.map (fun c => (cellFeats c).raises)).sum = 0 := by
  refine ⟨by decide, by decide, by decide⟩

/-- C5: the source contains a notebook for each of the four listed toy
problems: the Grover notebook constructs a `GroverOptimizer` (a
Grover-Adaptive-Search QUBO optimizer) and solves with it, the portfolio
notebook constructs a `PortfolioOptimization` (mean-variance selection),
the excited-states notebook constructs an `ExcitedStatesEigensolver` and a
`QEOM` solver (excited-state molecular energies), and the QuTiP notebook
tours the `Qobj` quantum-object algebra class. -/
theorem c5_four_toy_problem_notebooks :
    notebookCalls groverCodeCells "GroverOptimizer" = true ∧
    usesSolveCall groverCodeCells = true ∧
    notebookCalls portfolioCodeCells "PortfolioOptimization" = true ∧
    notebookCalls excitedCodeCells "ExcitedStatesEigensolver" = true ∧
    notebookCalls excitedCodeCells "QEOM" = true ∧
    notebookCalls qutipCodeCells "Qobj" = true := by
  refine ⟨by decide, by decide, by decide, by decide, by decide, by decide⟩

/-- C6: the notebooks invoke the constructors with exactly the spec's call
signatures: the Grover notebook contains the assignment
`grover_optimizer = GroverOptimizer(6, num_iterations=10, sampler=Sampler())`
and the portfolio notebook the assignment
`portfolio = PortfolioOptimization(expected_returns=mu, covariances=sigma,
risk_factor=q, budget=budget)`; moreover every `GroverOptimizer` call in
the repository has the shape (value-qubit count, num_iterations=…,
sampler=Sampler()) and every `PortfolioOptimization` call the shape
(expected_returns=…, covariances=…, risk_factor=…, budget=…). -/
theorem c6_constructor_call_signatures :
    (PyStmt.assign "grover_optimizer" groverCtorCall) ∈ groverCell3 ∧
    (PyStmt.assign "portfolio" portfolioCtorCall) ∈ portfolioCell4 ∧
    groverSigArgs (PyArgs.ofList
      [pA (iL 6), pK "num_iterations" (iL 10), pK "sampler" (pCall "Sampler" [])]) = true ∧
    allCodeCells.all (cellCallsOk "GroverOptimizer" groverSigArgs) = true ∧
    allCodeCells.all (cellCallsOk "PortfolioOptimization" portfolioSigArgs) = true ∧
    notebookCalls groverCodeCells "GroverOptimizer" = true ∧
    notebookCalls portfolioCodeCells "PortfolioOptimization" = true :=
  ⟨List.Mem.head _,
   .tail _ (.tail _ (.tail _ (.tail _ (.tail _ (.tail _ (.head _)))))),
   by decide, by decide, by decide, by decide, by decide⟩

/-- C7 counterexample: the claim that every code cell merely constructs
instances via library constructors and reads result fields is false: the
portfolio notebook's fifth code cell (index 10 among all code cells)
defines the function `print_result`, which is neither a construction nor a
field read. -/
theorem c7_counterexample_print_result_not_construct_read :
    allCodeCells.get? 10 = some portfolioCell5 ∧
    merelyConstructsAndReads portfolioCell5 = false ∧
    allCodeCells.all merelyConstructsAndReads = false :=
  ⟨rfl, by decide, by decide⟩

/-- C7 amended: no code cell defines a class (a new entity type), and
every code cell consists of statements that construct instances, configure
or read them (imports, assignments, attribute assignments, expression
statements, magics, comments) except for the two helper function
definitions `print_result` and `filter_criterion`. -/
theorem c7_amended_no_classes_only_helper_defs :
    allCodeCells.all classFree = true ∧
    (allCodeCells.map (fun c => (cellFeats c).classes)).sum = 0 ∧
    allCodeCells.all
      (fun cell => cell.all (fun s => isConstructOrReadStmt s || isHelperFuncDef s)) = true := by
  refine ⟨by decide, by decide, by decide⟩

/-- C8: no code cell of any notebook contains a concurrency construct: no
async definition or await, no import of a thread/process/async/scheduler
module, and no call that creates a thread, process, pool or task —
execution is a linear single-threaded sequence of the cells. -/
theorem c8_no_concurrency :
    allCodeCells.all concFree = true ∧
    (allCodeCells.map (fun c => (cellFeats c).asyncs)).sum = 0 ∧
    allCodeCells.all
      (fun c => (cellImports c).all (fun m => !(concurrencyModules.contains m))) = true := by
  refine ⟨by decide, by decide, by decide⟩

/-- C9: in the recorded outputs of the excited-states notebook, each of
the three excited-state total energies reported by the qEOM solver agrees
with the corresponding energy reported by the NumPyEigensolver run with
the custom filter criterion (particle number 2, magnetization 0) to within
1e-4 Hartree. -/
theorem c9_excited_energies_agree :
    List.Forall₂ (fun a b => |a - b| ≤ (1 : ℚ) / 10000)
      qeomTotalExcitedEnergies filteredNumpyTotalExcitedEnergies := by
  refine .cons ?_ (.cons ?_ (.cons ?_ .nil)) <;>
    rw [abs_le] <;> constructor <;>
      norm_num [qeomTotalExcitedEnergies, filteredNumpyTotalExcitedEnergies]

/-- C10: for every objective and probabilities dictionary handed to
`print_result`, the rows of the printed "Full result" table are in
non-increasing order of probability (the items are sorted descending by
value before printing), and each row's selection vector is obtained by
reversing the bitstring key before the objective is evaluated on it; every
row stems from an item of the dictionary. -/
theorem c10_print_result_table_sorted_and_reversed
    (obj : List ℤ → ℚ) (probs : List (List Bool × ℚ)) :
    ((printResultRows obj probs).map ResultRow.probability).Sorted
      (fun a b : ℚ => b ≤ a) ∧
    ∀ row ∈ printResultRows obj probs, ∃ kv ∈ probs,
      row.selection = kv.1.reverse.map bitVal ∧
      row.value = obj (kv.1.reverse.map bitVal) ∧
      row.probability = kv.2 := by
  constructor
  · have hs : (probs.insertionSort probDesc).Sorted probDesc :=
      List.sorted_insertionSort probDesc probs
    simp only [printResultRows, List.map_map, List.Sorted, List.pairwise_map]
    exact hs
  · intro row hrow
    simp only [printResultRows, List.mem_map] at hrow
    obtain ⟨kv, hkv, rfl⟩ := hrow
    exact ⟨kv, (List.mem_insertionSort probDesc).mp hkv, rfl, rfl, rfl⟩

/-- C10 witness: the table theorem instantiated at a concrete
single-entry probabilities dictionary with key `1001`: the table is sorted
and its row's selection vector `[1, 0, 0, 1]` is the reversed key. -/
theorem c10_print_result_table_witness :
    ((printResultRows c10WitnessObj c10WitnessProbs).map ResultRow.probability).Sorted
      (fun a b : ℚ => b ≤ a) ∧
    ∃ kv ∈ c10WitnessProbs,
      (ResultRow.mk [1, 0, 0, 1] 0 1).selection = kv.1.reverse.map bitVal ∧
      (ResultRow.mk [1, 0, 0, 1] 0 1).value = c10WitnessObj (kv.1.reverse.map bitVal) ∧
      (ResultRow.mk [1, 0, 0, 1] 0 1).probability = kv.2 :=
  ⟨(c10_print_result_table_sorted_and_reversed c10WitnessObj c10WitnessProbs).1,
   (c10_print_result_table_sorted_and_reversed c10WitnessObj c10WitnessProbs).2
     (ResultRow.mk [1, 0, 0, 1] 0 1) (List.Mem.head _)⟩
